import Mathlib

/-!
Verification of the provider session and upload orchestrator of `garmin_rust`
(Python sources: `fitbit_auth.py`, `garmin_connect.py`, `strava_upload.py`).

Python strings are modelled as `List Char`; external library calls (the Fitbit
OAuth client, the HTTP session, gzip, dateutil) are modelled as parameters or
abstract constructors, while every branch and computation of the repository's
own code is translated directly.
-/

set_option linter.unusedVariables false

/-- Abbreviation: a Python string, modelled as its character list. -/
def toL (s : String) : List Char :=
  s.toList

namespace FitbitAuth

/-- Token record held by the fitbit client session after a successful
`fetch_access_token` (`fitbit_auth.py` lines 56-58 read these three keys). -/
structure Token where
  access_token : List Char
  refresh_token : List Char
  user_id : List Char
deriving DecidableEq, Repr

/-- Result of the external library call `client.fetch_access_token(code)`:
it returns a token, or raises one of the two exceptions the handler catches
(`fitbit_auth.py` lines 50-54). -/
inductive FetchResult where
  | ok (t : Token)
  | missingTokenError
  | mismatchingStateError
deriving DecidableEq, Repr

/-- The fitbit client object stored in the `fitbit_client[0]` holder; the
external library behaviour of `fetch_access_token` is a parameter. -/
structure FitbitClient where
  fetch_access_token : List Char → FetchResult

/-- Outcome of one invocation of the `/callback` handler:
either a Flask `(body, status)` response together with the credential record
written to `~/.fitbit_tokens` (or `none` when nothing was written), or an
unhandled Python exception escaping the handler. -/
inductive CallbackOutcome where
  | response (body : List Char) (status : Nat)
      (written : Option (List Char × List Char × List Char))
  | unhandledException
deriving DecidableEq

/-- The credential record written at `fitbit_auth.py` lines 59-62:
`(user_id, access_token, refresh_token)` lines of `~/.fitbit_tokens`. -/
def tokenRecord (t : Token) : List Char × List Char × List Char :=
  (t.user_id, t.access_token, t.refresh_token)

/-- `fitbit_auth_callback` (`fitbit_auth.py` lines 42-66), GET `/callback`.
`client` is the current content of the `fitbit_client[0]` holder (`None`
until `/auth` ran); `code` and `state` are the query parameters.  The
handler reads only `code` (the `state` read on line 45 is commented out).
When `code` is present and the holder is still `None`, line 50 dereferences
`None` and the `AttributeError` escapes unhandled.  The second component of
the result records whether `fetch_access_token` was invoked, i.e. whether a
token-exchange request was issued. -/
def fitbit_auth_callback (client : Option FitbitClient)
    (code : Option (List Char)) (state : Option (List Char)) :
    CallbackOutcome × Bool :=
  match code with
  | none => (.response (toL "No code received") 200 none, false)
  | some c =>
    match client with
    | none => (.unhandledException, false)
    | some cl =>
      match cl.fetch_access_token c with
      | .missingTokenError =>
          (.response (toL "Missing access token parameter.</br>Please check that you are using the correct client_secret") 200 none, true)
      | .mismatchingStateError =>
          (.response (toL "CSRF Warning! Mismatching state") 200 none, true)
      | .ok t =>
          (.response (toL "You are now authorized to access the Fitbit API!") 200
            (some (tokenRecord t)), true)

/-- A concrete client whose exchange always succeeds, for counterexamples. -/
def okClient : FitbitClient :=
  ⟨fun _ => .ok ⟨toL "at", toL "rt", toL "uid"⟩⟩

/-- A concrete client whose exchange raises `MismatchingStateError`. -/
def msClient : FitbitClient :=
  ⟨fun _ => .mismatchingStateError⟩

/-- The library state consumed by `fitbit_auth` (`fitbit_auth.py` lines 31-38):
the `Fitbit(...)` constructor result, of which the handler uses the authorize
URL returned by `authorize_token_url()` and the underlying OAuth client. -/
structure FitbitLib where
  authorize_token_url : List Char
  client : FitbitClient

/-- `fitbit_auth` (`fitbit_auth.py` lines 25-39), GET `/auth`: stores a fresh
client in the `fitbit_client[0]` holder and returns the library's authorize
URL with status 200.  Its only request inputs are the `id` and `secret`
query parameters; no caller context of any kind is encoded into the URL or
retained for the callback.  Returns `((body, status), new holder content)`. -/
def fitbit_auth (clientId clientSecret : Option (List Char)) (lib : FitbitLib) :
    (List Char × Nat) × FitbitClient :=
  ((lib.authorize_token_url, 200), lib.client)

/-- The credential file written by a callback outcome (`none` = no write). -/
def writtenOf : CallbackOutcome → Option (List Char × List Char × List Char)
  | .response _ _ w => w
  | .unhandledException => none

end FitbitAuth

namespace GarminConnect

/-- Exit state of the redirect-chain loop of `get_session`
(`garmin_connect.py` lines 66-83). -/
inductive RedeemOutcome where
  /-- `break` at line 80: the hop's status was 200 or 404. -/
  | resolved (hops : Nat) (status : Nat)
  /-- exception raised at line 78 (`GC redeem n/m error`): the hop bound was
  reached without a 200 response. -/
  | exhausted (hops : Nat) (status : Nat)
  /-- `break` at line 83 after the counter passed the bound. -/
  | brokeAtBound (hops : Nat)
deriving DecidableEq, Repr

/-- Result of running the redirect loop: its exit state, the number of
`session.get` calls performed, and the total seconds spent in
`time.sleep(2)` calls. -/
structure RedeemRun where
  outcome : RedeemOutcome
  gets : Nat
  sleepSecs : Nat
deriving DecidableEq, Repr

/-- `max_redirect_count = 7` (`garmin_connect.py` line 66). -/
def max_redirect_count : Nat := 7

/-- The `while True` loop of `get_session` (`garmin_connect.py` lines 68-83).
`status n` is the HTTP status of the response to the n-th redirect GET
(the provider abstracted; the URL fix-up of lines 70-74 only rewrites the
request target and cannot affect the loop's control flow, so it is not
threaded through).  Each iteration sleeps 2 seconds, performs one GET, then
applies the three exit tests of lines 77-83 in order.  `fuel` bounds the
recursion; the loop exits at `count = 7` at the latest, so fuel 7 from
`count = 1` is never exhausted (shown in the lemmas below). -/
def redeemLoop (status : Nat → Nat) :
    Nat → Nat → Nat → Nat → RedeemRun
  | 0, count, gets, sleeps => ⟨.brokeAtBound count, gets, sleeps⟩
  | fuel + 1, count, gets, sleeps =>
    let s := status count
    if count ≥ max_redirect_count ∧ s ≠ 200 then
      ⟨.exhausted count s, gets + 1, sleeps + 2⟩
    else if s = 200 ∨ s = 404 then
      ⟨.resolved count s, gets + 1, sleeps + 2⟩
    else if count + 1 > max_redirect_count then
      ⟨.brokeAtBound (count + 1), gets + 1, sleeps + 2⟩
    else
      redeemLoop status fuel (count + 1) (gets + 1) (sleeps + 2)

/-- The redirect chain as entered from `get_session`:
`current_redirect_count = 1` (line 67), no GETs or sleeps performed yet. -/
def redeemRun (status : Nat → Nat) : RedeemRun :=
  redeemLoop status max_redirect_count 1 0 0

/-- A hop status on which line 79 breaks the loop. -/
def breakStatus (s : Nat) : Prop := s = 200 ∨ s = 404

instance (s : Nat) : Decidable (breakStatus s) := by
  unfold breakStatus; infer_instance

/-- An entry of the activity listing JSON used by `get_activities`
(`garmin_connect.py` lines 99-101): only these two fields are read. -/
structure ActivityEntry where
  activityId : List Char
  startTimeGMT : List Char
deriving DecidableEq, Repr

/-- `f'{HOMEDIR}/Downloads/{activity_id}.zip'` (`garmin_connect.py` line 107). -/
def downloadFname (homedir activity_id : List Char) : List Char :=
  homedir ++ toL "/Downloads/" ++ activity_id ++ toL ".zip"

/-- The `for entry in js` loop of `get_activities` (`garmin_connect.py`
lines 99-114).  `parse` models `dateutil.parser.parse` composed with the
UTC interpretation `.replace(tzinfo=tzutc())`, yielding a comparable
instant (an integer); `download` models `session.get(...).content` for an
activity id.  Returns, in order, the `(filename, content)` pairs written
to disk (lines 113-114). -/
def activitiesLoop (parse : List Char → Int) (max_timestamp : Int)
    (download : List Char → List Char) (homedir : List Char) :
    List ActivityEntry → List (List Char × List Char)
  | [] => []
  | entry :: rest =>
    let timestamp := parse entry.startTimeGMT
    if timestamp ≤ max_timestamp then
      activitiesLoop parse max_timestamp download homedir rest
    else
      (downloadFname homedir entry.activityId, download entry.activityId)
        :: activitiesLoop parse max_timestamp download homedir rest

/-- `get_activities` (`garmin_connect.py` lines 90-114): parses the caller's
`max_timestamp` string with the same date parser, then runs the entry loop
over the listing returned by the provider. -/
def get_activities (parse : List Char → Int) (max_timestamp : List Char)
    (download : List Char → List Char) (homedir : List Char)
    (js : List ActivityEntry) : List (List Char × List Char) :=
  activitiesLoop parse (parse max_timestamp) download homedir js

end GarminConnect

namespace StravaUpload

/-- `'.tcx'` checker (`strava_upload.py` line 39):
`'<TrainingCenterDatabase' in v[:200]`. -/
def checker_tcx (v : List Char) : Bool :=
  decide ((toL "<TrainingCenterDatabase") <:+: v.take 200)

/-- `'.gpx'` checker (`strava_upload.py` line 40): `'<gpx' in v[:200]`. -/
def checker_gpx (v : List Char) : Bool :=
  decide ((toL "<gpx") <:+: v.take 200)

/-- `'.fit'` checker (`strava_upload.py` line 41): `v[8:12] == '.FIT'`. -/
def checker_fit (v : List Char) : Bool :=
  (v.drop 8).take 4 == toL ".FIT"

/-- `allowed_exts` (`strava_upload.py` lines 38-42), in dict insertion
order, which is the iteration order of `allowed_exts.items()`. -/
def allowed_exts : List (List Char × (List Char → Bool)) :=
  [(toL ".tcx", checker_tcx), (toL ".gpx", checker_gpx), (toL ".fit", checker_fit)]

/-- The extension keys of `allowed_exts`, used for membership tests. -/
def allowedExtKeys : List (List Char) :=
  [toL ".tcx", toL ".gpx", toL ".fit"]

/-- A stdin/file byte stream.  gzip is abstract: a `gzipped` stream is one
that starts with the magic bytes `\x1f\x8b` and decompresses to `inner`; a
`plain` stream is one that does not start with those bytes. -/
inductive ByteStream where
  | plain (data : List Char)
  | gzipped (inner : List Char)
deriving DecidableEq, Repr

/-- The uncompressed contents of a stream: for a gzipped stream, what
`gzip.GzipFile(fileobj=act, mode='rb').read()` yields; for a plain one,
the raw bytes. -/
def contentsOf : ByteStream → List Char
  | .plain d => d
  | .gzipped inner => inner

/-- The gzip-compressed transport payload handed to `upload_activity`:
`gzipOf d` is the gzip compression of `d` (abstract). -/
inductive Payload where
  | gzipOf (data : List Char)
deriving DecidableEq, Repr

/-- The `for ext, checker in allowed_exts.items(): ... break / else:`
construct (`strava_upload.py` lines 152-157).  Returns the value of the
loop variable `ext` after the loop together with whether a checker matched
(`break` taken).  Python semantics: with no `break`, `ext` keeps the last
iterated key and the `else:` arm prints the warning. -/
def sniffExt (contents : List Char) :
    List (List Char × (List Char → Bool)) → List Char × Bool
  | [] => ([], false)
  | (ext, checker) :: rest =>
    if checker contents then (ext, true)
    else
      match rest with
      | [] => (ext, false)
      | _ :: _ => sniffExt contents rest

/-- Result of the stdin classification block (`strava_upload.py` lines
141-157, `args.type is None`). -/
structure StdinResult where
  /-- `gz_`: `".gz"` when the stream was already compressed, else `""`. -/
  gz : List Char
  /-- `contents` after the optional decompression of line 148. -/
  contents : List Char
  /-- `cf_`: the compressed stream handed to the upload call. -/
  cf : Payload
  /-- the loop variable `ext` after the sniffing loop. -/
  ext : List Char
  /-- whether a checker matched (the loop broke at line 155). -/
  matched : Bool
  /-- whether `Could not determine file type of stdin` was printed. -/
  warned : Bool
  /-- whether control continues into the upload section (it always does:
  the `else:` arm only prints). -/
  proceeds : Bool
deriving DecidableEq, Repr

/-- The stdin branch of the activity loop with no forced type
(`strava_upload.py` lines 141-157): detect gzip by the leading magic
(line 146); keep the compressed stream as `cf_` when already gzipped
(line 147), otherwise write a gzip copy into a temp file (lines 150-151);
then sniff `contents` against the three checkers in order.  Unknown
content only prints a warning (line 157) and falls through. -/
def classify_stdin (s : ByteStream) : StdinResult :=
  let contents := contentsOf s
  let gz := match s with | .gzipped _ => toL ".gz" | .plain _ => toL ""
  let sniffed := sniffExt contents allowed_exts
  { gz := gz
    contents := contents
    cf := .gzipOf contents
    ext := sniffed.1
    matched := sniffed.2
    warned := !sniffed.2
    proceeds := true }

/-- Index of the last occurrence of `c` in `s` (Python `str.rfind`,
restricted to single-character needles), `none` when absent. -/
def rfindChar (c : Char) : List Char → Option Nat
  | [] => none
  | x :: xs =>
    match rfindChar c xs with
    | some i => some (i + 1)
    | none => if x = c then some 0 else none

/-- `os.path.splitext` (posixpath): split at the last `.` of the final path
component, unless every character between the component start and that dot
is itself a dot (so `.gpx` has no extension). -/
def splitext (p : List Char) : List Char × List Char :=
  let sepI : Int := match rfindChar '/' p with | none => -1 | some si => (si : Int)
  match rfindChar '.' p with
  | none => (p, [])
  | some d =>
    if sepI < (d : Int) then
      let start := (sepI + 1).toNat
      if ((p.drop start).take (d - start)).any (fun ch => ch != '.') then
        (p.take d, p.drop d)
      else (p, [])
    else (p, [])

/-- `str.lower` over our character lists. -/
def lower (s : List Char) : List Char :=
  s.map Char.toLower

/-- How the upload extension (`ext`) was determined for one activity
(`strava_upload.py` lines 140-176). -/
inductive KindDetermined where
  /-- stdin without `-t`: the content-sniffing loop ran (lines 144-157). -/
  | sniffed (ext : List Char) (matched : Bool)
  /-- stdin with `-t`: `base, ext = 'activity', args.type` (line 159);
  no content is read. -/
  | fromArg (ext : List Char)
  /-- named file: `ext` comes from `os.path.splitext` alone (lines
  161-175); `allowed` records the membership test of line 171, whose
  failure only prints a warning. -/
  | fromName (base ext : List Char) (allowed : Bool)
  /-- named `.gz` file: line 166 reads `args.no_parse`, an attribute no
  `add_argument` call defines, so the `Namespace` lookup raises
  `AttributeError` before any kind is determined. -/
  | crashed
deriving DecidableEq, Repr

/-- An activity input: the standard-input stream, or an opened file with
its name and its byte stream. -/
inductive ActSource where
  | stdinSrc (s : ByteStream)
  | fileSrc (name : List Char) (s : ByteStream)
deriving DecidableEq, Repr

/-- The kind-determination region of the activity loop (`strava_upload.py`
lines 140-176), with `forcedType = args.type`.  For stdin it sniffs content
only when no type was forced; for a named file it takes the extension of
`act.name` (or of `'activity.' + args.type`), re-splitting once for a
trailing `.gz`. -/
def determine_ext (forcedType : Option (List Char)) : ActSource → KindDetermined
  | .stdinSrc s =>
    match forcedType with
    | none =>
      let sniffed := sniffExt (contentsOf s) allowed_exts
      .sniffed sniffed.1 sniffed.2
    | some t => .fromArg t
  | .fileSrc name s =>
    let nameArg := match forcedType with
      | none => name
      | some t => toL "activity." ++ t
    let se := splitext nameArg
    if lower se.2 == toL ".gz" then
      .crashed
    else
      .fromName se.1 se.2 (decide (lower se.2 ∈ allowedExtKeys))

/-- Python `str.split()` with no argument: split on runs of whitespace,
discarding empty fields.  `acc` accumulates the current word reversed. -/
def pySplitAux (acc : List Char) : List Char → List (List Char)
  | [] => if acc.isEmpty then [] else [acc.reverse]
  | c :: cs =>
    if c.isWhitespace then
      if acc.isEmpty then pySplitAux [] cs
      else acc.reverse :: pySplitAux [] cs
    else pySplitAux (c :: acc) cs

/-- `e.args[0].split()` (`strava_upload.py` line 208). -/
def pySplit (s : List Char) : List (List Char) :=
  pySplitAux [] s

/-- Python slice `words[-4:-1]`: for a list of length `n`, the elements
from `max(0, n-4)` up to (excluding) `n-1`. -/
def sliceM4M1 (ws : List (List Char)) : List (List Char) :=
  (ws.drop (ws.length - 4)).dropLast

/-- Terminal interpretation of an `ActivityUploadFailed` message. -/
inductive UploadOutcome where
  /-- the duplicate branch (lines 209-211): `duplicate = True` and the
  activity is fetched by `words[-1]`. -/
  | duplicate (activityId : List Char)
  /-- the `raise` of line 213: the same exception, message unmodified,
  propagates. -/
  | failed (msg : List Char)
deriving DecidableEq, Repr

/-- The `except exc.ActivityUploadFailed` handler (`strava_upload.py`
lines 207-213): split the message; when `words[-4:-1]` is exactly
`['duplicate', 'of', 'activity']`, resolve the activity id from the last
word; otherwise re-raise unchanged.  (`words[-1]` exists whenever the
slice test succeeds, since the slice then has length 3, forcing at least
four words; `[]` is a dead default.) -/
def handleUploadFailure (msg : List Char) : UploadOutcome :=
  let words := pySplit msg
  if sliceM4M1 words = [toL "duplicate", toL "of", toL "activity"] then
    .duplicate (words.getLastD [])
  else
    .failed msg

/-- The argparse specification of one option, as far as value validation
goes: `choices=None` accepts any string. -/
structure ArgSpec where
  choices : Option (List (List Char))

/-- The `-t` (`--type`) option (`strava_upload.py` lines 60-67):
`choices=allowed_exts`. -/
def typeArg : ArgSpec :=
  ⟨some allowedExtKeys⟩

/-- The `-A` (`--activity-type`) option (`strava_upload.py` lines 76-85):
no `choices` keyword, so argparse performs no value validation; the
enumerated set appears only in the help text. -/
def activityTypeArg : ArgSpec :=
  ⟨none⟩

/-- argparse value validation: a parsed value is rejected exactly when a
`choices` list is present and does not contain it. -/
def argparseAccepts (spec : ArgSpec) (v : List Char) : Bool :=
  match spec.choices with
  | none => true
  | some cs => decide (v ∈ cs)

/-- The keyword arguments of the `client.upload_activity` network call
(`strava_upload.py` lines 198-204). -/
structure UploadCall where
  activity_file : Payload
  data_type : List Char
  name : Option (List Char)
  description : Option (List Char)
  isPrivate : Bool
  activity_type : Option (List Char)
deriving DecidableEq, Repr

/-- Lines 197-204: the upload call as issued, with
`data_type = ext[1:] + '.gz'` and every metadata field passed through
verbatim; no validation of `activity_type` occurs on this path. -/
def submit_upload (ext : List Char) (cf : Payload)
    (title desc : Option (List Char)) (isPrivate : Bool)
    (activity_type : Option (List Char)) : UploadCall :=
  { activity_file := cf
    data_type := ext.drop 1 ++ toL ".gz"
    name := title
    description := desc
    isPrivate := isPrivate
    activity_type := activity_type }

/-- The stdin path from classification to the upload call
(`strava_upload.py` lines 141-157 then 196-204, `args.type is None`,
`args.xml_desc` false): whatever the sniffing found — including nothing —
the flow reaches `upload_activity`, with `activity_type` forwarded
untouched. -/
def process_stdin_upload (s : ByteStream) (title desc : Option (List Char))
    (isPrivate : Bool) (activity_type : Option (List Char)) : UploadCall :=
  let r := classify_stdin s
  submit_upload r.ext r.cf title desc isPrivate activity_type

end StravaUpload

namespace FitbitAuth

/-- C9: if GET `/callback` arrives with a `code` parameter before any
GET `/auth` request initialized the client holder, line 50 dereferences the
still-unset holder (`None`) and the resulting `AttributeError` escapes the
handler unhandled; in particular no `(body, status)` response (the
`.response` constructor) is produced, no exchange is attempted, and
nothing is written. -/
theorem fitbit_callback_unset_client_crashes (c : List Char)
    (state : Option (List Char)) :
    fitbit_auth_callback none (some c) state = (.unhandledException, false) :=
  rfl

/-- C8: for every invocation of the `/callback` handler, a credential
record is written to `~/.fitbit_tokens` if and only if the token exchange
succeeded: the holder was initialized, a code was present, and
`fetch_access_token` returned a token — and then the record written is
exactly that token's `(user_id, access_token, refresh_token)`.  Every
failure path (missing code, unset client, `MissingTokenError`,
`MismatchingStateError`) leaves the stored record untouched. -/
theorem fitbit_callback_writes_iff_exchange (client : Option FitbitClient)
    (code state : Option (List Char))
    (rec : List Char × List Char × List Char) :
    writtenOf (fitbit_auth_callback client code state).1 = some rec ↔
      ∃ cl c t, client = some cl ∧ code = some c ∧
        cl.fetch_access_token c = .ok t ∧ rec = tokenRecord t := by
  cases code with
  | none => simp [fitbit_auth_callback, writtenOf]
  | some c =>
    cases client with
    | none => simp [fitbit_auth_callback, writtenOf]
    | some cl =>
      cases h : cl.fetch_access_token c with
      | ok t => simp [fitbit_auth_callback, writtenOf, h, eq_comm]
      | missingTokenError => simp [fitbit_auth_callback, writtenOf, h]
      | mismatchingStateError => simp [fitbit_auth_callback, writtenOf, h]

/-- C2 counterexample: a callback whose echoed `state` is missing does not
fail with the mismatching-state response and does perform the token
exchange: with an initialized client whose exchange succeeds, the handler
returns the success page, writes the credential, and the exchange flag is
`true`.  The handler never reads `state` (`fitbit_auth.py` line 45 is
commented out), so no state check can reject the callback. -/
theorem fitbit_callback_missing_state_counterexample :
    fitbit_auth_callback (some okClient) (some (toL "abc")) none =
      (.response (toL "You are now authorized to access the Fitbit API!") 200
        (some (toL "uid", toL "at", toL "rt")), true) := by
  decide

/-- C2 (amended): the `/callback` handler never checks the echoed `state`:
its behaviour is identical for any two `state` values; the token exchange
is attempted exactly when a code is present and the client holder is
initialized (regardless of `state`); and the `CSRF Warning! Mismatching
state` response is produced exactly when the exchange library itself
raises `MismatchingStateError` — that is, after the exchange was already
attempted, not as a local pre-exchange check. -/
theorem fitbit_callback_state_never_checked (client : Option FitbitClient)
    (code state state' : Option (List Char)) :
    fitbit_auth_callback client code state = fitbit_auth_callback client code state' ∧
    ((fitbit_auth_callback client code state).2 = true ↔
      client.isSome = true ∧ code.isSome = true) ∧
    (∀ cl c, client = some cl → code = some c →
      ((fitbit_auth_callback client code state).1 =
          .response (toL "CSRF Warning! Mismatching state") 200 none ↔
        cl.fetch_access_token c = .mismatchingStateError)) := by
  refine ⟨rfl, ?_, ?_⟩
  · cases code with
    | none => simp [fitbit_auth_callback]
    | some c =>
      cases client with
      | none => simp [fitbit_auth_callback]
      | some cl =>
        cases h : cl.fetch_access_token c <;> simp [fitbit_auth_callback, h]
  · intro cl c hcl hc
    subst hcl; subst hc
    cases h : cl.fetch_access_token c with
    | ok t =>
      simp only [fitbit_auth_callback, h]
      constructor
      · intro hco
        injection hco with h1 h2 h3
        exact absurd h3 (by simp)
      · intro hcontra; exact FetchResult.noConfusion hcontra
    | missingTokenError =>
      simp only [fitbit_auth_callback, h]
      constructor
      · intro hco
        injection hco with h1 h2 h3
        exact absurd h1 (by decide)
      · intro hcontra; exact FetchResult.noConfusion hcontra
    | mismatchingStateError =>
      simp only [fitbit_auth_callback, h]

/-- C2 witness: the mismatching-state response does occur — but only when
the exchange library raises it, with the exchange already attempted. -/
theorem fitbit_callback_state_never_checked_witness :
    (fitbit_auth_callback (some msClient) (some (toL "c")) none).1 =
      .response (toL "CSRF Warning! Mismatching state") 200 none :=
  ((fitbit_callback_state_never_checked (some msClient) (some (toL "c"))
      none none).2.2 msClient (toL "c") rfl rfl).mpr rfl

/-- C7 counterexample: the authorization round trip reproduces no caller
context.  Two distinct opaque contexts echoed back through the `state`
parameter yield byte-identical callback outcomes, so no decoding of the
callback's result can reproduce both contexts byte-for-byte. -/
theorem fitbit_state_roundtrip_counterexample :
    toL "contextA" ≠ toL "contextB" ∧
    fitbit_auth_callback (some okClient) (some (toL "code")) (some (toL "contextA")) =
      fitbit_auth_callback (some okClient) (some (toL "code")) (some (toL "contextB")) :=
  ⟨by decide, rfl⟩

/-- C7 (amended): the broker transports no opaque context through the
authorization redirect.  `/auth` returns exactly the library's authorize
URL — its only request inputs are the client id and secret, so no
caller-supplied context is encoded into the `state` — and the `/callback`
handler run against the client stored by `/auth` behaves identically for
every echoed `state` value. -/
theorem fitbit_auth_roundtrip_carries_no_context
    (clientId clientSecret : Option (List Char)) (lib : FitbitLib)
    (code echoedState echoedState' : Option (List Char)) :
    (fitbit_auth clientId clientSecret lib).1.1 = lib.authorize_token_url ∧
    fitbit_auth_callback (some (fitbit_auth clientId clientSecret lib).2)
        code echoedState =
      fitbit_auth_callback (some (fitbit_auth clientId clientSecret lib).2)
        code echoedState' :=
  ⟨rfl, rfl⟩

end FitbitAuth

namespace GarminConnect

/-- C10: `get_activities` downloads and writes an activity file for exactly
those listing entries whose start time, parsed and interpreted as UTC, is
strictly later than the parsed caller-supplied maximum timestamp: the
writes performed are precisely the filter of the listing by
`max < startTime`, in listing order, each written to
`HOMEDIR/Downloads/<id>.zip` with the downloaded content; entries at or
before the maximum produce no download and no write. -/
theorem get_activities_downloads_iff_later (parse : List Char → Int)
    (max_timestamp : List Char) (download : List Char → List Char)
    (homedir : List Char) (js : List ActivityEntry) :
    get_activities parse max_timestamp download homedir js =
      (js.filter (fun e => parse max_timestamp < parse e.startTimeGMT)).map
        (fun e => (downloadFname homedir e.activityId, download e.activityId)) := by
  unfold get_activities
  induction js with
  | nil => rfl
  | cons entry rest ih =>
    simp only [activitiesLoop, List.filter_cons]
    by_cases h : parse entry.startTimeGMT ≤ parse max_timestamp
    · have hnot : ¬ parse max_timestamp < parse entry.startTimeGMT := not_lt.mpr h
      rw [if_pos h, if_neg (by simpa using hnot)]
      exact ih
    · have hlt : parse max_timestamp < parse entry.startTimeGMT := lt_of_not_le h
      rw [if_neg h, if_pos (by simpa using hlt), List.map_cons]
      exact congrArg _ ih

end GarminConnect

namespace GarminConnect

/-- One non-exiting iteration: when the hop's status breaks nothing and the
counter is below the bound, the loop advances with one more GET and one
more 2-second sleep. -/
theorem redeemLoop_step (status : Nat → Nat) (fuel count g sl : Nat)
    (hok : ¬ breakStatus (status count)) (hlt : count < max_redirect_count) :
    redeemLoop status (fuel + 1) count g sl =
      redeemLoop status fuel (count + 1) (g + 1) (sl + 2) := by
  have hok' : ¬ (status count = 200 ∨ status count = 404) := hok
  have hc1 : ¬ (count ≥ max_redirect_count ∧ status count ≠ 200) := by
    intro hq
    exact absurd hlt (by omega)
  have hc3 : ¬ (count + 1 > max_redirect_count) := by
    unfold max_redirect_count at hlt ⊢
    omega
  simp only [redeemLoop]
  rw [if_neg hc1, if_neg hok', if_neg hc3]

/-- A breaking status strictly before the bound resolves the chain at that
hop (the `break` of line 79). -/
theorem redeemLoop_hit (status : Nat → Nat) (fuel count g sl : Nat)
    (hok : breakStatus (status count)) (hlt : count < max_redirect_count) :
    redeemLoop status (fuel + 1) count g sl =
      ⟨.resolved count (status count), g + 1, sl + 2⟩ := by
  have hok' : status count = 200 ∨ status count = 404 := hok
  have hc1 : ¬ (count ≥ max_redirect_count ∧ status count ≠ 200) := by
    intro hq
    exact absurd hlt (by omega)
  simp only [redeemLoop]
  rw [if_neg hc1, if_pos hok']

/-- At the bound hop, the loop resolves only on a 200; any other status —
404 included — raises the `GC redeem` exception (line 78). -/
theorem redeemLoop_at_bound (status : Nat → Nat) (fuel g sl : Nat) :
    redeemLoop status (fuel + 1) max_redirect_count g sl =
      if status max_redirect_count = 200 then
        ⟨.resolved max_redirect_count 200, g + 1, sl + 2⟩
      else
        ⟨.exhausted max_redirect_count (status max_redirect_count), g + 1, sl + 2⟩ := by
  by_cases h : status max_redirect_count = 200
  · have hc1 : ¬ (max_redirect_count ≥ max_redirect_count ∧
        status max_redirect_count ≠ 200) := by
      intro hq
      exact hq.2 h
    simp only [redeemLoop]
    rw [if_neg hc1, if_pos (Or.inl h), if_pos h, h]
  · have hc1 : max_redirect_count ≥ max_redirect_count ∧
        status max_redirect_count ≠ 200 := ⟨le_refl _, h⟩
    simp only [redeemLoop]
    rw [if_pos hc1, if_neg h]

/-- If hop `i` is the first breaking hop and lies strictly before the
bound, the loop started at `count ≤ i` resolves exactly at hop `i`, having
performed `i + 1 - count` further GETs and slept 2 seconds before each. -/
theorem redeemLoop_first_hit (status : Nat → Nat) :
    ∀ fuel count g sl i, count + fuel = 8 → count ≤ i →
      i < max_redirect_count → breakStatus (status i) →
      (∀ j, count ≤ j → j < i → ¬ breakStatus (status j)) →
      redeemLoop status fuel count g sl =
        ⟨.resolved i (status i), g + (i + 1 - count), sl + 2 * (i + 1 - count)⟩ := by
  intro fuel
  induction fuel with
  | zero =>
    intro count g sl i hfuel hci hi hok hfirst
    unfold max_redirect_count at hi
    omega
  | succ fuel ih =>
    intro count g sl i hfuel hci hi hok hfirst
    rcases eq_or_lt_of_le hci with heq | hlt
    · subst heq
      rw [redeemLoop_hit status fuel count g sl hok (lt_of_le_of_lt hci hi)]
      have h1 : count + 1 - count = 1 := by omega
      rw [h1]
    · have hnb : ¬ breakStatus (status count) := hfirst count (le_refl _) hlt
      have hcm : count < max_redirect_count := by
        unfold max_redirect_count at hi ⊢
        omega
      rw [redeemLoop_step status fuel count g sl hnb hcm]
      have hres := ih (count + 1) (g + 1) (sl + 2) i (by omega) hlt hi hok
        (fun j hj1 hj2 => hfirst j (by omega) hj2)
      rw [hres]
      have h1 : g + 1 + (i + 1 - (count + 1)) = g + (i + 1 - count) := by omega
      have h2 : sl + 2 + 2 * (i + 1 - (count + 1)) = sl + 2 * (i + 1 - count) := by omega
      rw [h1, h2]

/-- If no hop strictly before the bound breaks, the loop reaches the bound
hop: there it resolves on a 200 and raises otherwise, having performed
`8 - count` further GETs in total. -/
theorem redeemLoop_no_hit (status : Nat → Nat) :
    ∀ fuel count g sl, count + fuel = 8 → 1 ≤ count →
      count ≤ max_redirect_count →
      (∀ j, count ≤ j → j < max_redirect_count → ¬ breakStatus (status j)) →
      redeemLoop status fuel count g sl =
        if status max_redirect_count = 200 then
          ⟨.resolved max_redirect_count 200, g + (8 - count), sl + 2 * (8 - count)⟩
        else
          ⟨.exhausted max_redirect_count (status max_redirect_count),
            g + (8 - count), sl + 2 * (8 - count)⟩ := by
  intro fuel
  induction fuel with
  | zero =>
    intro count g sl hfuel h1 h7 hnone
    unfold max_redirect_count at h7
    omega
  | succ fuel ih =>
    intro count g sl hfuel h1 h7 hnone
    rcases eq_or_lt_of_le h7 with heq | hlt
    · subst heq
      rw [redeemLoop_at_bound status fuel g sl]
      have h1' : 8 - max_redirect_count = 1 := by rfl
      rw [h1']
    · have hnb : ¬ breakStatus (status count) := hnone count (le_refl _) hlt
      rw [redeemLoop_step status fuel count g sl hnb hlt]
      have hres := ih (count + 1) (g + 1) (sl + 2) (by omega) (by omega) hlt
        (fun j hj1 hj2 => hnone j (by omega) hj2)
      rw [hres]
      have h8 : count < 8 := by
        unfold max_redirect_count at hlt
        omega
      have e1 : g + 1 + (8 - (count + 1)) = g + (8 - count) := by omega
      have e2 : sl + 2 + 2 * (8 - (count + 1)) = sl + 2 * (8 - count) := by omega
      rw [e1, e2]

/-- The loop performs at most `fuel` further GETs, and when the sleep total
entering an iteration is twice the GET count, the 2-second sleep before
every GET keeps that ratio at exit. -/
theorem redeemLoop_invariant (status : Nat → Nat) :
    ∀ fuel count g sl,
      (redeemLoop status fuel count g sl).gets ≤ g + fuel ∧
      (sl = 2 * g →
        (redeemLoop status fuel count g sl).sleepSecs =
          2 * (redeemLoop status fuel count g sl).gets) := by
  intro fuel
  induction fuel with
  | zero =>
    intro count g sl
    exact ⟨le_of_eq rfl, fun h => h⟩
  | succ fuel ih =>
    intro count g sl
    simp only [redeemLoop]
    split
    · exact ⟨by show g + 1 ≤ g + (fuel + 1); omega,
        fun h => by show sl + 2 = 2 * (g + 1); omega⟩
    · split
      · exact ⟨by show g + 1 ≤ g + (fuel + 1); omega,
          fun h => by show sl + 2 = 2 * (g + 1); omega⟩
      · split
        · exact ⟨by show g + 1 ≤ g + (fuel + 1); omega,
            fun h => by show sl + 2 = 2 * (g + 1); omega⟩
        · obtain ⟨ha, hb⟩ := ih (count + 1) (g + 1) (sl + 2)
          exact ⟨by omega, fun h => hb (by omega)⟩

end GarminConnect

namespace GarminConnect

/-- A status schedule whose first 200-or-404 response appears exactly at
the bound hop, and is a 404: hops 1 through 6 redirect (302), hop 7
returns 404. -/
def st404 : Nat → Nat :=
  fun n => if n = 7 then 404 else 302

/-- C1 counterexample: the chain does NOT halt successfully at the first
hop whose status is 200 or 404.  Under `st404` the first such hop is hop 7
(the configured bound) with status 404; the claim says the chain halts
(resolves) immediately there, but the code's bound check at line 77 fires
first (`count >= max_redirect_count and status != 200`) and the run ends
in the `GC redeem ... error` exception — the `RedirectChainExhausted`
outcome — instead. -/
theorem garmin_redirect_404_at_bound_counterexample :
    st404 1 = 302 ∧ st404 2 = 302 ∧ st404 3 = 302 ∧ st404 4 = 302 ∧
    st404 5 = 302 ∧ st404 6 = 302 ∧ st404 7 = 404 ∧
    redeemRun st404 = ⟨.exhausted 7 404, 7, 14⟩ := by
  decide

/-- C1 (amended): the redirect follower sleeps the fixed 2-second backoff
before each hop's GET (total sleep is always twice the hop count), never
performs more than the configured bound of 7 GETs, halts immediately at
the first hop whose status is 200 or 404 when that hop comes strictly
before the bound, and at the bound hop halts successfully only on a 200 —
any other status there, 404 included, fails with the chain-exhausted
error. -/
theorem garmin_redirect_chain_behaviour (status : Nat → Nat) :
    ((redeemRun status).gets ≤ max_redirect_count ∧
      (redeemRun status).sleepSecs = 2 * (redeemRun status).gets) ∧
    (∀ i, 1 ≤ i → i < max_redirect_count → breakStatus (status i) →
      (∀ j, 1 ≤ j → j < i → ¬ breakStatus (status j)) →
      redeemRun status = ⟨.resolved i (status i), i, 2 * i⟩) ∧
    ((∀ j, 1 ≤ j → j < max_redirect_count → ¬ breakStatus (status j)) →
      (status max_redirect_count = 200 →
        redeemRun status = ⟨.resolved max_redirect_count 200, 7, 14⟩) ∧
      (status max_redirect_count ≠ 200 →
        redeemRun status =
          ⟨.exhausted max_redirect_count (status max_redirect_count), 7, 14⟩)) := by
  refine ⟨?_, ?_, ?_⟩
  · obtain ⟨ha, hb⟩ := redeemLoop_invariant status max_redirect_count 1 0 0
    constructor
    · unfold redeemRun
      omega
    · unfold redeemRun
      exact hb rfl
  · intro i h1 hi hok hfirst
    have h := redeemLoop_first_hit status max_redirect_count 1 0 0 i (by rfl)
      h1 hi hok (fun j hj1 hj2 => hfirst j hj1 hj2)
    unfold redeemRun
    rw [h]
    have e1 : 0 + (i + 1 - 1) = i := by omega
    have e2 : 0 + 2 * (i + 1 - 1) = 2 * i := by omega
    rw [e1, e2]
  · intro hnone
    have h := redeemLoop_no_hit status max_redirect_count 1 0 0 (by rfl)
      (le_refl 1) (by decide) hnone
    constructor
    · intro h200
      unfold redeemRun
      rw [h, if_pos h200]
    · intro h200
      unfold redeemRun
      rw [h, if_neg h200]

/-- C1 witness: a 404 at hop 3 — strictly before the bound — resolves the
chain immediately there, after 3 GETs and 6 seconds of backoff sleep. -/
theorem garmin_redirect_chain_behaviour_witness :
    redeemRun (fun n => if n = 3 then 404 else 302) =
      ⟨.resolved 3 404, 3, 6⟩ := by
  have h := (garmin_redirect_chain_behaviour (fun n => if n = 3 then 404 else 302)).2.1
    3 (by omega) (by decide) (by decide)
    (by
      intro j hj1 hj2
      interval_cases j <;> decide)
  simpa using h

end GarminConnect

namespace StravaUpload

/-- `words[-4:-1]` of a list ending in four given tokens is the first three
of them. -/
theorem sliceM4M1_suffix (ws : List (List Char)) (a b c d : List Char) :
    sliceM4M1 (ws ++ [a, b, c, d]) = [a, b, c] := by
  unfold sliceM4M1
  have hlen : (ws ++ [a, b, c, d]).length = ws.length + 4 := by simp
  rw [hlen, Nat.add_sub_cancel, List.drop_left]
  rfl

/-- `getLastD` of a list ending in four given tokens is the fourth. -/
theorem getLastD_suffix : ∀ (ws : List (List Char)) (e a b c d : List Char),
    (ws ++ [a, b, c, d]).getLastD e = d
  | [], e, a, b, c, d => rfl
  | x :: xs, e, a, b, c, d => by
    rw [List.cons_append, List.getLastD_cons]
    exact getLastD_suffix xs x a b c d

/-- A list of length 4 whose `dropLast` is `[a, b, c]` is `[a, b, c, d]`
for some `d`. -/
theorem four_decomp (l : List (List Char)) (a b c : List Char)
    (hlen : l.length = 4) (h : l.dropLast = [a, b, c]) :
    ∃ d, l = [a, b, c, d] := by
  rcases l with _ | ⟨x1, _ | ⟨x2, _ | ⟨x3, _ | ⟨x4, _ | ⟨x5, t⟩⟩⟩⟩⟩ <;>
    simp only [List.length] at hlen <;> try omega
  have h' : [x1, x2, x3] = [a, b, c] := h
  obtain ⟨e1, e2, e3⟩ : x1 = a ∧ x2 = b ∧ x3 = c := by
    injection h' with i1 h''
    injection h'' with i2 h'''
    injection h''' with i3 _
    exact ⟨i1, i2, i3⟩
  subst e1; subst e2; subst e3
  exact ⟨x4, rfl⟩

/-- If `words[-4:-1]` equals `[a, b, c]` then the word list ends in
`[a, b, c, d]` for some final token `d`. -/
theorem slice_decomp (ws : List (List Char)) (a b c : List Char)
    (h : sliceM4M1 ws = [a, b, c]) :
    ∃ ws0 d, ws = ws0 ++ [a, b, c, d] := by
  unfold sliceM4M1 at h
  have hlen3 : (ws.drop (ws.length - 4)).dropLast.length = 3 := by
    rw [h]
    rfl
  rw [List.length_dropLast, List.length_drop] at hlen3
  have hlen : 4 ≤ ws.length := by omega
  have hlen4 : (ws.drop (ws.length - 4)).length = 4 := by
    rw [List.length_drop]
    omega
  obtain ⟨d, hd⟩ := four_decomp (ws.drop (ws.length - 4)) a b c hlen4 h
  refine ⟨ws.take (ws.length - 4), d, ?_⟩
  conv_lhs => rw [← List.take_append_drop (ws.length - 4) ws]
  rw [hd]

/-- C3: the `ActivityUploadFailed` handler parses the provider's duplicate
pattern exactly: when the failure message's word list ends in
`duplicate of activity <id>` (Python `words[-4:-1] == ['duplicate', 'of',
'activity']`), the result is the `Duplicate` terminal state carrying the
trailing token as the activity id; for every other failure message the
exception is re-raised with the message unmodified (`Failed(message)`). -/
theorem strava_duplicate_message_parsing (msg : List Char) :
    (∀ ws0 idTok,
      pySplit msg = ws0 ++ [toL "duplicate", toL "of", toL "activity", idTok] →
      handleUploadFailure msg = .duplicate idTok) ∧
    ((∀ ws0 idTok,
      pySplit msg ≠ ws0 ++ [toL "duplicate", toL "of", toL "activity", idTok]) →
      handleUploadFailure msg = .failed msg) := by
  constructor
  · intro ws0 idTok hsplit
    simp only [handleUploadFailure]
    rw [hsplit, sliceM4M1_suffix, if_pos rfl, getLastD_suffix]
  · intro hno
    have hcond : ¬ (sliceM4M1 (pySplit msg) =
        [toL "duplicate", toL "of", toL "activity"]) := by
      intro hslice
      obtain ⟨ws0, d, hdecomp⟩ := slice_decomp (pySplit msg) _ _ _ hslice
      exact hno ws0 d hdecomp
    simp only [handleUploadFailure]
    rw [if_neg hcond]

/-- C3 witness: the literal provider wording resolves to `Duplicate` with
the trailing token as id, at a concrete message. -/
theorem strava_duplicate_message_parsing_witness :
    handleUploadFailure (toL "Unable to process duplicate of activity 12345") =
      .duplicate (toL "12345") :=
  (strava_duplicate_message_parsing
      (toL "Unable to process duplicate of activity 12345")).1
    [toL "Unable", toL "to", toL "process"] (toL "12345") (by decide)

end StravaUpload

namespace StravaUpload

/-- C4 counterexample: content matching none of the three signatures is
NOT rejected.  For stdin bytes `"hello world"` the sniffing loop matches
nothing, the `else:` arm merely prints `Could not determine file type of
stdin` (`warned = true`), and control proceeds to the upload section
(`proceeds = true`) with the compressed payload — and with `ext` still
holding `".fit"`, the last key the loop iterated.  There is no
`UnsupportedFormat` failure and no pass-through prevention. -/
theorem strava_classify_unknown_passthrough_counterexample :
    classify_stdin (.plain (toL "hello world")) =
      { gz := toL "", contents := toL "hello world",
        cf := .gzipOf (toL "hello world"), ext := toL ".fit",
        matched := false, warned := true, proceeds := true } := by
  decide

/-- C4 (amended): for every stdin byte stream the classifier hands a
gzip-compressed payload of the (decompressed) contents to the upload and
always proceeds; the detected kind is the first signature match in the
fixed sniff order `.tcx`, `.gpx`, `.fit` (root-element markers searched in
the first 200 bytes, FIT 4-byte signature at offset 8), for gzipped and
plain streams alike; content matching no signature yields no match and
a printed warning — not an `UnsupportedFormat` failure — and the content
still flows on to the upload. -/
theorem strava_classify_stdin_behaviour (s : ByteStream) :
    (classify_stdin s).cf = .gzipOf (contentsOf s) ∧
    (classify_stdin s).proceeds = true ∧
    (checker_tcx (contentsOf s) = true →
      (classify_stdin s).ext = toL ".tcx" ∧ (classify_stdin s).matched = true) ∧
    (checker_tcx (contentsOf s) = false → checker_gpx (contentsOf s) = true →
      (classify_stdin s).ext = toL ".gpx" ∧ (classify_stdin s).matched = true) ∧
    (checker_tcx (contentsOf s) = false → checker_gpx (contentsOf s) = false →
      checker_fit (contentsOf s) = true →
      (classify_stdin s).ext = toL ".fit" ∧ (classify_stdin s).matched = true) ∧
    (checker_tcx (contentsOf s) = false → checker_gpx (contentsOf s) = false →
      checker_fit (contentsOf s) = false →
      (classify_stdin s).matched = false ∧ (classify_stdin s).warned = true) := by
  refine ⟨rfl, rfl, ?_, ?_, ?_, ?_⟩
  · intro h1
    simp [classify_stdin, allowed_exts, sniffExt, h1]
  · intro h1 h2
    simp [classify_stdin, allowed_exts, sniffExt, h1, h2]
  · intro h1 h2 h3
    simp [classify_stdin, allowed_exts, sniffExt, h1, h2, h3]
  · intro h1 h2 h3
    simp [classify_stdin, allowed_exts, sniffExt, h1, h2, h3]

/-- C4 witness: a gzip-compressed GPX stream is detected as `.gpx` with the
compressed payload preserved. -/
theorem strava_classify_stdin_behaviour_witness :
    (classify_stdin (.gzipped (toL "<?xml?><gpx zzz"))).cf =
        .gzipOf (toL "<?xml?><gpx zzz") ∧
    (classify_stdin (.gzipped (toL "<?xml?><gpx zzz"))).ext = toL ".gpx" ∧
    (classify_stdin (.gzipped (toL "<?xml?><gpx zzz"))).matched = true :=
  ⟨(strava_classify_stdin_behaviour (.gzipped (toL "<?xml?><gpx zzz"))).1,
    ((strava_classify_stdin_behaviour (.gzipped (toL "<?xml?><gpx zzz"))).2.2.2.1
      (by decide) (by decide)).1,
    ((strava_classify_stdin_behaviour (.gzipped (toL "<?xml?><gpx zzz"))).2.2.2.1
      (by decide) (by decide)).2⟩

/-- C5 counterexample: an `activity_type` outside the enumerated set is
not rejected locally.  argparse accepts `"parachuting"` for
`-A` (`--activity-type`) (the option declares no `choices`), and the upload
pipeline issues the `client.upload_activity` network call carrying
`activity_type="parachuting"` — no `InvalidActivityType` rejection exists
anywhere before the call. -/
theorem strava_activity_type_not_validated_counterexample :
    argparseAccepts activityTypeArg (toL "parachuting") = true ∧
    (process_stdin_upload (.plain (toL "<gpx")) none none false
        (some (toL "parachuting"))).activity_type = some (toL "parachuting") := by
  decide

/-- C5 (amended): the orchestrator performs no local validation of the
activity type: the `-A` (`--activity-type`) argparse option accepts every
string (its enumerated set lives only in help text), and the flow from
classification to the `upload_activity` network call forwards whatever
value was supplied, unchanged, as the call's `activity_type` argument. -/
theorem strava_activity_type_forwarded (s : ByteStream)
    (title desc : Option (List Char)) (isPrivate : Bool)
    (activity_type : Option (List Char)) (v : List Char) :
    argparseAccepts activityTypeArg v = true ∧
    (process_stdin_upload s title desc isPrivate activity_type).activity_type =
      activity_type :=
  ⟨rfl, rfl⟩

/-- C6 counterexample: for a named file the extension alone decides the
kind, overriding the content signature.  A file named `foo.gpx` whose
bytes carry the TCX root-element marker (and no GPX marker) is handled as
`.gpx`: the kind comes from `os.path.splitext` and the content checkers
never run. -/
theorem strava_extension_decides_counterexample :
    checker_tcx (toL "<TrainingCenterDatabase x") = true ∧
    checker_gpx (toL "<TrainingCenterDatabase x") = false ∧
    determine_ext none
        (.fileSrc (toL "foo.gpx") (.plain (toL "<TrainingCenterDatabase x"))) =
      .fromName (toL "foo") (toL ".gpx") true := by
  decide

/-- C6 (amended): content signatures decide the kind only for stdin input
without a forced type; whenever a file name or a `-t` value is available,
the extension or flag alone decides and the byte stream is never
consulted: the determination is identical for any two streams with the
same name and forced type, a forced type on stdin is taken verbatim with
no sniffing, and only the stdin-without-type path runs the signature
checkers on the contents. -/
theorem strava_kind_determination (forcedType : Option (List Char))
    (name : List Char) (s s' : ByteStream) (t : List Char) :
    determine_ext forcedType (.fileSrc name s) =
      determine_ext forcedType (.fileSrc name s') ∧
    determine_ext (some t) (.stdinSrc s) = .fromArg t ∧
    determine_ext none (.stdinSrc s) =
      .sniffed (sniffExt (contentsOf s) allowed_exts).1
        (sniffExt (contentsOf s) allowed_exts).2 :=
  ⟨rfl, rfl, rfl⟩

end StravaUpload
